import Mathlib

/-!
Shallow embedding of the Hydra acceptance-test harness
(`acceptance/shared/shared.go`) and proofs about it.

The Go file has three public operations:

* `MustHaveValidContainerLogDir` — validates that a configured container
  log directory, when non-empty, is an absolute path; otherwise it calls
  `log.Fatalf`, which aborts the whole test process.
* `CreatePGPool` — builds a `pgxpool` connection pool against
  `postgres://<user>:<pass>@127.0.0.1:<port>` under a one-second child
  context, pings it, wraps failures (`ErrPgPoolConnect` sentinel for the
  ping stage), and registers a `t.Cleanup` that closes the pool.
* `TerminateContainer` / `writeLogs` — optionally captures `docker logs`
  output to `<logDir>/<name>.log` (mode 0644) and then runs
  `docker kill <name>` or `docker stop --time 30 <name>`; every failure is
  reported through `t.Fatalf` (fatal to the calling test only).

External collaborators (the Go standard library, `pgxpool`, the docker
CLI, the filesystem and `testing.T`) are modelled explicitly:

* Go `error` values with `%w` wrapping become the inductive `GoError`,
  with `GoError.is` modelling `errors.Is`.
* Go `context.Context` is modelled by its observable deadline: an
  `Option Nat` (absolute time, nanoseconds), `none` meaning no deadline.
  `context.WithTimeout` becomes `contextWithTimeout`.
* The outcomes of external calls (`pgxpool.New`, `Ping`,
  `cmd.CombinedOutput`, `os.WriteFile`) are supplied by environment
  records (`PGEnv`, `DockerEnv`): the harness code is deterministic given
  those outcomes, and the theorems quantify over them.
* Side effects are made observable as traces: `PGAction` lists for the
  prober (calls performed and cleanups registered), `DockerEvent` lists
  plus an explicit filesystem map for the container controller.
  `t.Fatalf` halts the calling test, so nothing after it runs; this is
  embedded by cutting the trace at the fatal event and flagging
  `testFatal`.  `log.Fatalf` aborts the whole process
  (`ValidationOutcome.processFatal`).
* `filepath.IsAbs` and `filepath.Join` (Unix rules, as used by the test
  environment) become `filepathIsAbs` and `goFilepathJoin`, with
  `goClean` implementing `path.Clean`'s semantics on `/`-separated
  components.
-/

/-- Go `error` values as produced by this package and its collaborators:
a base error (e.g. a sentinel from `errors.New`, or an opaque error from an
external library) or an error wrapping another one, as built by
`fmt.Errorf` with the `%w` verb.  The `msg` of a `wrapped` error is its
full rendered message. -/
inductive GoError where
  | base (msg : String)
  | wrapped (msg : String) (inner : GoError)
deriving DecidableEq, Repr

/-- The rendered message of a Go error (`err.Error()`). -/
def GoError.message : GoError → String
  | .base m => m
  | .wrapped m _ => m

/-- Go `errors.Is(e, target)`: `e` equals `target` or some error in its
unwrap chain does. -/
def GoError.is : GoError → GoError → Bool
  | .base m, target => GoError.base m == target
  | .wrapped m inner, target => GoError.wrapped m inner == target || inner.is target

/-- `var ErrPgPoolConnect = errors.New("pgxpool did not connect")`. -/
def ErrPgPoolConnect : GoError := GoError.base "pgxpool did not connect"

/-- Split a character list at every occurrence of `sep`; the resulting
groups do not contain `sep` and there is one more group than there are
occurrences of `sep` (so `[]` yields `[[]]`). -/
def splitChar (sep : Char) : List Char → List (List Char)
  | [] => [[]]
  | c :: cs =>
      match splitChar sep cs with
      | [] => [[c]]
      | h :: t => if c = sep then [] :: h :: t else (c :: h) :: t

/-- Go `filepath.IsAbs` on Unix: the path starts with a slash. -/
def filepathIsAbs (p : String) : Bool :=
  match p.toList with
  | [] => false
  | c :: _ => c == '/'

/-- Outcome of a function that may call `log.Fatalf`: either the process
is aborted with a message (`processFatal`), or the function returns
normally with no side effect (`ok`). -/
inductive ValidationOutcome where
  | processFatal (msg : String)
  | ok
deriving DecidableEq, Repr

/-- `MustHaveValidContainerLogDir` from `shared.go`: if the log directory
is non-empty and not absolute, `log.Fatalf` aborts the whole test process;
otherwise the function just returns. -/
def MustHaveValidContainerLogDir (logDir : String) : ValidationOutcome :=
  if logDir ≠ "" ∧ filepathIsAbs logDir = false then
    ValidationOutcome.processFatal ("the container log dir must be absolute, got " ++ logDir)
  else
    ValidationOutcome.ok

/-- Go `path.Clean` semantics (Unix), implemented on the `/`-separated
components: drop empty and `.` components, resolve `..` against a
preceding component, keep leading `..`s of a relative path, drop `..`s at
the root of an absolute path. -/
def goClean (path : String) : String :=
  if path = "" then "."
  else
    let rooted := filepathIsAbs path
    let comps := ((splitChar '/' path.toList).map String.mk).filter
      (fun c => c ≠ "" ∧ c ≠ ".")
    let out := (comps.foldl (fun acc c =>
      if c = ".." then
        match acc with
        | [] => if rooted then [] else [".."]
        | top :: rest => if top = ".." then c :: acc else rest
      else c :: acc) []).reverse
    let joined := String.intercalate "/" out
    if rooted = true then
      if joined = "" then "/" else "/" ++ joined
    else
      if joined = "" then "." else joined

/-- Go `filepath.Join(dir, file)` on Unix: skip empty leading elements,
join the rest with `/` and clean the result. -/
def goFilepathJoin (dir file : String) : String :=
  if dir = "" && file = "" then ""
  else if dir = "" then goClean file
  else goClean (dir ++ "/" ++ file)

/-- An opaque `pgxpool.Pool` handle. -/
structure PGPool where
  id : Nat
deriving DecidableEq, Repr

/-- Go `time.Second` in nanoseconds. -/
def timeSecond : Nat := 1000000000

/-- Go `context.WithTimeout(parent, d)` called at absolute time `now`,
observed through deadlines: the child context's deadline is `now + d`
capped by the parent's deadline — whichever expires first wins. -/
def contextWithTimeout (now : Nat) (parent : Option Nat) (d : Nat) : Option Nat :=
  match parent with
  | none => some (now + d)
  | some dl => some (min dl (now + d))

/-- The environment supplying the behaviour of the external `pgxpool`
library: what `pgxpool.New` returns for a given connection string and
context deadline, and what `Ping` returns for a given pool and context
deadline (`none` meaning success). -/
structure PGEnv where
  newPool : String → Option Nat → Except GoError PGPool
  ping : PGPool → Option Nat → Option GoError

/-- Observable actions of `CreatePGPool`: the external calls it performs
and the cleanup it may register.  A `closePool` appearing in the
performed-actions list would mean the component closed the pool itself
during the call; one appearing in the registered-cleanups list means
disposal was deferred to the end of the test scope via `t.Cleanup`. -/
inductive PGAction where
  | newPool (connString : String) (deadline : Option Nat)
  | ping (pool : PGPool) (deadline : Option Nat)
  | closePool (pool : PGPool)
deriving DecidableEq, Repr

/-- The context deadline an action was issued under, if it carries one. -/
def PGAction.deadlineOf : PGAction → Option (Option Nat)
  | .newPool _ dl => some dl
  | .ping _ dl => some dl
  | .closePool _ => none

/-- The connection string built by `CreatePGPool`:
`fmt.Sprintf("postgres://%s:%s@127.0.0.1:%d", username, password, port)` —
direct interpolation, no escaping or validation. -/
def pgConnString (username password : String) (port : Int) : String :=
  "postgres://" ++ username ++ ":" ++ password ++ "@127.0.0.1:" ++ toString port

/-- Result of a `CreatePGPool` call: the returned pool and error, the
external actions performed during the call (in order), and the cleanup
actions registered with `t.Cleanup`. -/
structure CreatePGPoolResult where
  pool : Option PGPool
  err : Option GoError
  actions : List PGAction
  cleanups : List PGAction
deriving DecidableEq, Repr

/-- `CreatePGPool` from `shared.go`, at absolute time `now` with the
caller's context deadline `parent`: derive a one-second child context,
call `pgxpool.New` with the interpolated connection string, return a
wrapped construction error on failure; otherwise `Ping` through the same
child context, returning an error wrapping `ErrPgPoolConnect`
(`fmt.Errorf("%w: %s", ErrPgPoolConnect, err)`) on failure; on success
register `pool.Close` via `t.Cleanup` and return the pool. -/
def CreatePGPool (env : PGEnv) (now : Nat) (parent : Option Nat)
    (username password : String) (port : Int) : CreatePGPoolResult :=
  let ctx := contextWithTimeout now parent timeSecond
  let cs := pgConnString username password port
  match env.newPool cs ctx with
  | .error e =>
      { pool := none
        err := some (GoError.wrapped ("failed to construct new pool: " ++ e.message) e)
        actions := [PGAction.newPool cs ctx]
        cleanups := [] }
  | .ok pool =>
      match env.ping pool ctx with
      | some e =>
          { pool := none
            err := some (GoError.wrapped (ErrPgPoolConnect.message ++ ": " ++ e.message)
              ErrPgPoolConnect)
            actions := [PGAction.newPool cs ctx, PGAction.ping pool ctx]
            cleanups := [] }
      | none =>
          { pool := some pool
            err := none
            actions := [PGAction.newPool cs ctx, PGAction.ping pool ctx]
            cleanups := [PGAction.closePool pool] }

/-- An external command as built by `exec.CommandContext` (program and
arguments; the context it was given is recorded on the trace event). -/
structure GoCmd where
  prog : String
  args : List String
deriving DecidableEq, Repr

/-- Observable events of the container lifecycle controller: an external
command execution (`CombinedOutput`), a successful file write
(`os.WriteFile` with the given path, contents and permission bits), or a
`t.Fatalf` call, which marks the calling test failed and halts it — no
event follows a `fatalf` in a trace. -/
inductive DockerEvent where
  | exec (ctx : Option Nat) (cmd : GoCmd)
  | fileWrite (path : String) (contents : String) (mode : Nat)
  | fatalf (msg : String)
deriving DecidableEq, Repr

/-- Is this event a file write? -/
def DockerEvent.isFileWrite : DockerEvent → Bool
  | .fileWrite _ _ _ => true
  | _ => false

/-- Is this event an execution of a docker termination command
(`docker kill …` or `docker stop …`)? -/
def DockerEvent.isTermExec : DockerEvent → Bool
  | .exec _ c => c.prog = "docker" && (c.args.head? = some "kill" || c.args.head? = some "stop")
  | _ => false

/-- Is this event an external command execution? -/
def DockerEvent.isExec : DockerEvent → Bool
  | .exec _ _ => true
  | _ => false

/-- The filesystem, observed as a map from path to contents and
permission bits of the file there, if any. -/
def FS : Type := String → Option (String × Nat)

/-- The environment supplying the behaviour of the external docker CLI
and the filesystem: the combined output and error of the
`docker logs` call, the error of the `os.WriteFile` call (`none` meaning
success), and the combined output and error of the termination command. -/
structure DockerEnv where
  logsCombinedOutput : String
  logsErr : Option GoError
  writeFileErr : Option GoError
  termCombinedOutput : String
  termErr : Option GoError

/-- The `docker logs <name>` command built by `writeLogs`. -/
def dockerLogsCmd (containerName : String) : GoCmd :=
  { prog := "docker", args := ["logs", containerName] }

/-- The termination command built by `TerminateContainer`:
`docker kill <name>` when `kill`, else `docker stop --time 30 <name>`. -/
def dockerTermCmd (containerName : String) (kill : Bool) : GoCmd :=
  if kill then { prog := "docker", args := ["kill", containerName] }
  else { prog := "docker", args := ["stop", "--time", "30", containerName] }

/-- The log file path used by `writeLogs`:
`filepath.Join(logDir, fmt.Sprintf("%s.log", containerName))`. -/
def containerLogPath (logDir containerName : String) : String :=
  goFilepathJoin logDir (containerName ++ ".log")

/-- `writeLogs` from `shared.go`: a no-op when `logDir` is empty;
otherwise run `docker logs <name>`, `t.Fatalf` on command failure
(including the combined output in the message), write the output to
`<logDir>/<name>.log` with mode `0644` (octal, = 420), `t.Fatalf` on
write failure.  Returns the events, the resulting filesystem, and whether
`t.Fatalf` was reached. -/
def writeLogs (env : DockerEnv) (ctx : Option Nat) (fs : FS)
    (containerName logDir : String) : List DockerEvent × FS × Bool :=
  if logDir = "" then ([], fs, false)
  else
    match env.logsErr with
    | some e =>
        ([DockerEvent.exec ctx (dockerLogsCmd containerName),
          DockerEvent.fatalf ("unable to fetch container log " ++ e.message ++ ": "
            ++ env.logsCombinedOutput)],
         fs, true)
    | none =>
        match env.writeFileErr with
        | some e =>
            ([DockerEvent.exec ctx (dockerLogsCmd containerName),
              DockerEvent.fatalf ("unable to write container log: " ++ e.message)],
             fs, true)
        | none =>
            ([DockerEvent.exec ctx (dockerLogsCmd containerName),
              DockerEvent.fileWrite (containerLogPath logDir containerName)
                env.logsCombinedOutput 420],
             fun p => if p = containerLogPath logDir containerName then
                 some (env.logsCombinedOutput, 420)
               else fs p,
             false)

/-- Result of a `TerminateContainer` call: the events in order, the
resulting filesystem, and whether the calling test was failed and halted
by `t.Fatalf`. -/
structure TerminateResult where
  events : List DockerEvent
  fs : FS
  testFatal : Bool

/-- `TerminateContainer` from `shared.go`: a no-op when the container
name is empty; otherwise capture logs via `writeLogs` (halting if it
called `t.Fatalf`), then run `docker kill <name>` or
`docker stop --time 30 <name>` and `t.Fatalf` on failure, including the
combined output in the message. -/
def TerminateContainer (env : DockerEnv) (ctx : Option Nat) (fs : FS)
    (containerName logDir : String) (kill : Bool) : TerminateResult :=
  if containerName = "" then { events := [], fs := fs, testFatal := false }
  else
    let w := writeLogs env ctx fs containerName logDir
    if w.2.2 then { events := w.1, fs := w.2.1, testFatal := true }
    else
      match env.termErr with
      | some e =>
          { events := w.1 ++ [DockerEvent.exec ctx (dockerTermCmd containerName kill),
              DockerEvent.fatalf ("unable to terminate container " ++ e.message ++ ": "
                ++ env.termCombinedOutput)]
            fs := w.2.1
            testFatal := true }
      | none =>
          { events := w.1 ++ [DockerEvent.exec ctx (dockerTermCmd containerName kill)]
            fs := w.2.1
            testFatal := false }

/-- The characters after the first occurrence of `//`, if any. -/
def afterDoubleSlash : List Char → Option (List Char)
  | [] => none
  | '/' :: '/' :: rest => some rest
  | _ :: rest => afterDoubleSlash rest

/-- Authority of a URL of the form `scheme://authority/…`: the text
between the `//` and the next `/`.  Models how the client library's URL
parser delimits the endpoint part of the connection string. -/
def urlAuthority (s : String) : String :=
  match afterDoubleSlash s.toList with
  | none => ""
  | some rest => String.mk (rest.takeWhile (fun c => c != '/'))

/-- Host (with port) of a URL: the part of the authority after the last
`@`, per generic URL syntax. -/
def urlHostPort (s : String) : String :=
  String.mk ((splitChar '@' (urlAuthority s).toList).getLastD [])

/-! ### Helper lemmas -/

/-- `errors.Is` is reflexive. -/
theorem GoError.is_self (e : GoError) : e.is e = true := by
  cases e <;> simp [GoError.is]

/-- A wrapping error matches everything its wrapped error matches. -/
theorem GoError.is_wrapped_inner (m : String) (e : GoError) :
    (GoError.wrapped m e).is e = true := by
  simp [GoError.is, GoError.is_self]

/-- Reduction of `CreatePGPool` when `pgxpool.New` fails. -/
theorem CreatePGPool_construct_error (env : PGEnv) (now : Nat) (parent : Option Nat)
    (u p : String) (port : Int) (e : GoError)
    (h : env.newPool (pgConnString u p port) (contextWithTimeout now parent timeSecond)
      = Except.error e) :
    CreatePGPool env now parent u p port =
      { pool := none
        err := some (GoError.wrapped ("failed to construct new pool: " ++ e.message) e)
        actions := [PGAction.newPool (pgConnString u p port)
          (contextWithTimeout now parent timeSecond)]
        cleanups := [] } := by
  simp only [CreatePGPool, h]

/-- Reduction of `CreatePGPool` when construction succeeds but the ping
fails. -/
theorem CreatePGPool_ping_error (env : PGEnv) (now : Nat) (parent : Option Nat)
    (u p : String) (port : Int) (pl : PGPool) (e : GoError)
    (h1 : env.newPool (pgConnString u p port) (contextWithTimeout now parent timeSecond)
      = Except.ok pl)
    (h2 : env.ping pl (contextWithTimeout now parent timeSecond) = some e) :
    CreatePGPool env now parent u p port =
      { pool := none
        err := some (GoError.wrapped (ErrPgPoolConnect.message ++ ": " ++ e.message)
          ErrPgPoolConnect)
        actions := [PGAction.newPool (pgConnString u p port)
            (contextWithTimeout now parent timeSecond),
          PGAction.ping pl (contextWithTimeout now parent timeSecond)]
        cleanups := [] } := by
  simp only [CreatePGPool, h1, h2]

/-- Reduction of `CreatePGPool` when construction and ping both
succeed. -/
theorem CreatePGPool_success (env : PGEnv) (now : Nat) (parent : Option Nat)
    (u p : String) (port : Int) (pl : PGPool)
    (h1 : env.newPool (pgConnString u p port) (contextWithTimeout now parent timeSecond)
      = Except.ok pl)
    (h2 : env.ping pl (contextWithTimeout now parent timeSecond) = none) :
    CreatePGPool env now parent u p port =
      { pool := some pl
        err := none
        actions := [PGAction.newPool (pgConnString u p port)
            (contextWithTimeout now parent timeSecond),
          PGAction.ping pl (contextWithTimeout now parent timeSecond)]
        cleanups := [PGAction.closePool pl] } := by
  simp only [CreatePGPool, h1, h2]

/-! ### Claim theorems -/

/-- C2: for every username, password, port, and caller context,
`CreatePGPool` returns a non-nil pool handle if and only if both pool
construction and the subsequent liveness ping succeed; on every failure
path it returns a nil handle together with a non-nil error, and any
returned handle has been pinged successfully — no handle is returned in
an unverified state. -/
theorem CreatePGPool_pool_iff_verified (env : PGEnv) (now : Nat) (parent : Option Nat)
    (u p : String) (port : Int) :
    ((CreatePGPool env now parent u p port).pool.isSome = true ↔
      ∃ pl, env.newPool (pgConnString u p port) (contextWithTimeout now parent timeSecond)
          = Except.ok pl
        ∧ env.ping pl (contextWithTimeout now parent timeSecond) = none) ∧
    ((CreatePGPool env now parent u p port).pool = none →
      ∃ e, (CreatePGPool env now parent u p port).err = some e) ∧
    (∀ pl, (CreatePGPool env now parent u p port).pool = some pl →
      (CreatePGPool env now parent u p port).err = none
      ∧ env.ping pl (contextWithTimeout now parent timeSecond) = none) := by
  cases h1 : env.newPool (pgConnString u p port) (contextWithTimeout now parent timeSecond) with
  | error e =>
      rw [CreatePGPool_construct_error env now parent u p port e h1]
      refine ⟨⟨fun h => absurd h (by simp), ?_⟩, fun _ => ⟨_, rfl⟩, fun q hq => ?_⟩
      · rintro ⟨q, hq, -⟩
        exact Except.noConfusion hq
      · exact Option.noConfusion hq
  | ok pl =>
      cases h2 : env.ping pl (contextWithTimeout now parent timeSecond) with
      | some e =>
          rw [CreatePGPool_ping_error env now parent u p port pl e h1 h2]
          refine ⟨⟨fun h => absurd h (by simp), ?_⟩, fun _ => ⟨_, rfl⟩, fun q hq => ?_⟩
          · rintro ⟨q, hq, hping⟩
            injection hq with hq
            subst hq
            rw [h2] at hping
            exact Option.noConfusion hping
          · exact Option.noConfusion hq
      | none =>
          rw [CreatePGPool_success env now parent u p port pl h1 h2]
          refine ⟨⟨fun _ => ⟨pl, rfl, h2⟩, fun _ => rfl⟩, fun h => Option.noConfusion h,
            fun q hq => ?_⟩
          injection hq with hq
          subst hq
          exact ⟨rfl, h2⟩

/-- C3: the error returned by `CreatePGPool` matches the sentinel
`ErrPgPoolConnect` under `errors.Is` if and only if the failure occurred
at the liveness-probe (ping) stage; a pool-construction failure returns a
distinct error that wraps the underlying cause, does not match the
sentinel, and no probe is attempted after it.  The hypothesis records
that the external library's construction errors do not themselves wrap
this package's private sentinel. -/
theorem CreatePGPool_sentinel_iff_ping_failure (env : PGEnv) (now : Nat) (parent : Option Nat)
    (u p : String) (port : Int)
    (hext : ∀ e, env.newPool (pgConnString u p port) (contextWithTimeout now parent timeSecond)
      = Except.error e → e.is ErrPgPoolConnect = false) :
    ((∃ er, (CreatePGPool env now parent u p port).err = some er
        ∧ er.is ErrPgPoolConnect = true) ↔
      (∃ pl e, env.newPool (pgConnString u p port) (contextWithTimeout now parent timeSecond)
          = Except.ok pl
        ∧ env.ping pl (contextWithTimeout now parent timeSecond) = some e)) ∧
    (∀ e, env.newPool (pgConnString u p port) (contextWithTimeout now parent timeSecond)
        = Except.error e →
      (CreatePGPool env now parent u p port).err
          = some (GoError.wrapped ("failed to construct new pool: " ++ e.message) e)
        ∧ (GoError.wrapped ("failed to construct new pool: " ++ e.message) e).is e = true
        ∧ (CreatePGPool env now parent u p port).actions
          = [PGAction.newPool (pgConnString u p port)
              (contextWithTimeout now parent timeSecond)]) := by
  cases h1 : env.newPool (pgConnString u p port) (contextWithTimeout now parent timeSecond) with
  | error e =>
      rw [CreatePGPool_construct_error env now parent u p port e h1]
      constructor
      · constructor
        · rintro ⟨er, her, his⟩
          injection her with her
          subst her
          have hfe := hext e h1
          simp only [ErrPgPoolConnect] at hfe
          simp [GoError.is, ErrPgPoolConnect, hfe] at his
        · rintro ⟨pl, e2, hok, -⟩
          exact Except.noConfusion hok
      · intro e2 he2
        injection he2 with he2
        subst he2
        exact ⟨rfl, GoError.is_wrapped_inner _ _, rfl⟩
  | ok pl =>
      cases h2 : env.ping pl (contextWithTimeout now parent timeSecond) with
      | some e =>
          rw [CreatePGPool_ping_error env now parent u p port pl e h1 h2]
          constructor
          · exact ⟨fun _ => ⟨pl, e, rfl, h2⟩,
              fun _ => ⟨_, rfl, GoError.is_wrapped_inner _ _⟩⟩
          · intro e2 he2
            exact Except.noConfusion he2
      | none =>
          rw [CreatePGPool_success env now parent u p port pl h1 h2]
          constructor
          · constructor
            · rintro ⟨er, her, -⟩
              exact Option.noConfusion her
            · rintro ⟨q, e2, hok, hping⟩
              injection hok with hok
              subst hok
              rw [h2] at hping
              exact Option.noConfusion hping
          · intro e2 he2
            exact Except.noConfusion he2

/-- C4: `CreatePGPool` registers exactly one cleanup action — disposal of
the returned pool — if and only if it succeeds; on the probe-failure path
the component itself neither closes the created pool nor registers any
cleanup for it. -/
theorem CreatePGPool_cleanup_iff_success (env : PGEnv) (now : Nat) (parent : Option Nat)
    (u p : String) (port : Int) :
    ((CreatePGPool env now parent u p port).cleanups.length = 1 ↔
      (CreatePGPool env now parent u p port).pool.isSome = true) ∧
    (∀ pl, (CreatePGPool env now parent u p port).pool = some pl →
      (CreatePGPool env now parent u p port).cleanups = [PGAction.closePool pl]) ∧
    (∀ pl e, env.newPool (pgConnString u p port) (contextWithTimeout now parent timeSecond)
        = Except.ok pl →
      env.ping pl (contextWithTimeout now parent timeSecond) = some e →
      (CreatePGPool env now parent u p port).cleanups = []
        ∧ ∀ q, PGAction.closePool q ∉ (CreatePGPool env now parent u p port).actions) := by
  cases h1 : env.newPool (pgConnString u p port) (contextWithTimeout now parent timeSecond) with
  | error e =>
      rw [CreatePGPool_construct_error env now parent u p port e h1]
      refine ⟨by simp, fun pl hpl => Option.noConfusion hpl, fun pl e2 hok _ => ?_⟩
      exact Except.noConfusion hok
  | ok pl =>
      cases h2 : env.ping pl (contextWithTimeout now parent timeSecond) with
      | some e =>
          rw [CreatePGPool_ping_error env now parent u p port pl e h1 h2]
          refine ⟨by simp, fun q hq => Option.noConfusion hq, fun q e2 hok hping => ?_⟩
          injection hok with hok
          subst hok
          refine ⟨rfl, fun r => ?_⟩
          simp
      | none =>
          rw [CreatePGPool_success env now parent u p port pl h1 h2]
          refine ⟨by simp, fun q hq => ?_, fun q e2 hok hping => ?_⟩
          · injection hq with hq
            subst hq
            rfl
          · injection hok with hok
            subst hok
            rw [h2] at hping
            exact Option.noConfusion hping

/-- C5: for every log directory string that is non-empty and not an
absolute path, `MustHaveValidContainerLogDir` aborts the entire test
process via `log.Fatalf`; for an empty string or an absolute path it
returns normally with no side effect. -/
theorem MustHaveValidContainerLogDir_fatal_iff_relative (logDir : String) :
    (logDir ≠ "" ∧ filepathIsAbs logDir = false →
      MustHaveValidContainerLogDir logDir =
        ValidationOutcome.processFatal
          ("the container log dir must be absolute, got " ++ logDir)) ∧
    (logDir = "" ∨ filepathIsAbs logDir = true →
      MustHaveValidContainerLogDir logDir = ValidationOutcome.ok) := by
  constructor
  · intro h
    simp [MustHaveValidContainerLogDir, h]
  · rintro (h | h) <;> simp [MustHaveValidContainerLogDir, h]

/-- C5 witness: the validator is fatal on a concrete relative directory
and returns normally on a concrete absolute one. -/
theorem MustHaveValidContainerLogDir_fatal_iff_relative_witness :
    (("rel/dir" : String) ≠ "" ∧ filepathIsAbs "rel/dir" = false) ∧
    MustHaveValidContainerLogDir "rel/dir" =
      ValidationOutcome.processFatal ("the container log dir must be absolute, got " ++ "rel/dir")
    ∧ MustHaveValidContainerLogDir "/var/log/hydra" = ValidationOutcome.ok :=
  ⟨⟨by decide, by decide⟩,
   (MustHaveValidContainerLogDir_fatal_iff_relative "rel/dir").1 ⟨by decide, by decide⟩,
   (MustHaveValidContainerLogDir_fatal_iff_relative "/var/log/hydra").2 (Or.inr (by decide))⟩

/-- C6: for an empty container reference, `TerminateContainer` is a no-op
for every environment, log directory, context, kill flag and initial
filesystem: no events (no external command, no file write), the
filesystem unchanged, and the test not failed. -/
theorem TerminateContainer_empty_name_noop (env : DockerEnv) (ctx : Option Nat) (fs : FS)
    (logDir : String) (kill : Bool) :
    TerminateContainer env ctx fs "" logDir kill =
      { events := [], fs := fs, testFatal := false } := by
  rfl

/-- C9: `CreatePGPool` derives a child deadline equal to the caller's
deadline capped at one second from now — whichever expires first — and
every external action it performs (`pgxpool.New` and `Ping`) is issued
under exactly that derived deadline, which never exceeds `now + 1s`. -/
theorem CreatePGPool_derived_deadline (env : PGEnv) (now : Nat) (parent : Option Nat)
    (u p : String) (port : Int) :
    (parent = none → contextWithTimeout now parent timeSecond = some (now + timeSecond)) ∧
    (∀ dl, parent = some dl →
      contextWithTimeout now parent timeSecond = some (min dl (now + timeSecond))) ∧
    (∃ t, contextWithTimeout now parent timeSecond = some t ∧ t ≤ now + timeSecond
      ∧ ∀ dl, parent = some dl → t ≤ dl) ∧
    (∀ a ∈ (CreatePGPool env now parent u p port).actions,
      a.deadlineOf = some (contextWithTimeout now parent timeSecond)) := by
  refine ⟨fun h => by rw [h]; rfl, fun dl h => by rw [h]; rfl, ?_, ?_⟩
  · cases parent with
    | none => exact ⟨now + timeSecond, rfl, le_refl _, fun dl h => Option.noConfusion h⟩
    | some dl =>
        refine ⟨min dl (now + timeSecond), rfl, min_le_right _ _, fun dl2 h => ?_⟩
        injection h with h
        rw [← h]
        exact min_le_left _ _
  · cases h1 : env.newPool (pgConnString u p port) (contextWithTimeout now parent timeSecond) with
    | error e =>
        rw [CreatePGPool_construct_error env now parent u p port e h1]
        intro a ha
        simp only [List.mem_singleton] at ha
        subst ha
        rfl
    | ok pl =>
        cases h2 : env.ping pl (contextWithTimeout now parent timeSecond) with
        | some e =>
            rw [CreatePGPool_ping_error env now parent u p port pl e h1 h2]
            intro a ha
            simp only [List.mem_cons, List.mem_singleton, List.not_mem_nil, or_false] at ha
            rcases ha with ha | ha <;> (subst ha; rfl)
        | none =>
            rw [CreatePGPool_success env now parent u p port pl h1 h2]
            intro a ha
            simp only [List.mem_cons, List.mem_singleton, List.not_mem_nil, or_false] at ha
            rcases ha with ha | ha <;> (subst ha; rfl)

/-- C10: `CreatePGPool` opens the pool against exactly the connection
string `postgres://<username>:<password>@127.0.0.1:<port>`, formed by
direct string interpolation with no escaping or validation of the
credential strings: distinct credential pairs can collide into the same
connection string, and a URL-significant character such as `/` in a
credential changes the endpoint a URL parser extracts from the string. -/
theorem CreatePGPool_connstring_no_escaping (env : PGEnv) (now : Nat) (parent : Option Nat) :
    (∀ u p port, (CreatePGPool env now parent u p port).actions.head?
      = some (PGAction.newPool (pgConnString u p port)
          (contextWithTimeout now parent timeSecond))) ∧
    pgConnString "u" "pw" 5432 = "postgres://u:pw@127.0.0.1:5432" ∧
    pgConnString "a:b" "c" 5432 = pgConnString "a" "b:c" 5432 ∧
    (("a:b" : String) ≠ "a" ∧ ("c" : String) ≠ "b:c") ∧
    urlHostPort (pgConnString "user" "pw" 5432) = "127.0.0.1:5432" ∧
    urlHostPort (pgConnString "user/x" "pw" 5432) = "user" := by
  refine ⟨?_, by decide, by decide, by decide, by decide, by decide⟩
  intro u p port
  cases h1 : env.newPool (pgConnString u p port) (contextWithTimeout now parent timeSecond) with
  | error e =>
      rw [CreatePGPool_construct_error env now parent u p port e h1]
      rfl
  | ok pl =>
      cases h2 : env.ping pl (contextWithTimeout now parent timeSecond) with
      | some e =>
          rw [CreatePGPool_ping_error env now parent u p port pl e h1 h2]
          rfl
      | none =>
          rw [CreatePGPool_success env now parent u p port pl h1 h2]
          rfl

/-- Reduction of `writeLogs` when no log directory is configured. -/
theorem writeLogs_no_dir (env : DockerEnv) (ctx : Option Nat) (fs : FS)
    (containerName : String) :
    writeLogs env ctx fs containerName "" = ([], fs, false) := by
  simp [writeLogs]

/-- Reduction of `writeLogs` when the log fetch and the file write both
succeed. -/
theorem writeLogs_ok (env : DockerEnv) (ctx : Option Nat) (fs : FS)
    (containerName logDir : String)
    (hdir : logDir ≠ "") (hlogs : env.logsErr = none) (hwrite : env.writeFileErr = none) :
    writeLogs env ctx fs containerName logDir =
      ([DockerEvent.exec ctx (dockerLogsCmd containerName),
        DockerEvent.fileWrite (containerLogPath logDir containerName)
          env.logsCombinedOutput 420],
       fun p => if p = containerLogPath logDir containerName then
           some (env.logsCombinedOutput, 420)
         else fs p,
       false) := by
  simp only [writeLogs, if_neg hdir, hlogs, hwrite]

/-- Reduction of `writeLogs` when the `docker logs` command fails. -/
theorem writeLogs_fetch_error (env : DockerEnv) (ctx : Option Nat) (fs : FS)
    (containerName logDir : String) (e : GoError)
    (hdir : logDir ≠ "") (hlogs : env.logsErr = some e) :
    writeLogs env ctx fs containerName logDir =
      ([DockerEvent.exec ctx (dockerLogsCmd containerName),
        DockerEvent.fatalf ("unable to fetch container log " ++ e.message ++ ": "
          ++ env.logsCombinedOutput)],
       fs, true) := by
  simp only [writeLogs, if_neg hdir, hlogs]

/-- Reduction of `writeLogs` when the log file write fails. -/
theorem writeLogs_write_error (env : DockerEnv) (ctx : Option Nat) (fs : FS)
    (containerName logDir : String) (e : GoError)
    (hdir : logDir ≠ "") (hlogs : env.logsErr = none) (hwrite : env.writeFileErr = some e) :
    writeLogs env ctx fs containerName logDir =
      ([DockerEvent.exec ctx (dockerLogsCmd containerName),
        DockerEvent.fatalf ("unable to write container log: " ++ e.message)],
       fs, true) := by
  simp only [writeLogs, if_neg hdir, hlogs, hwrite]

/-- C1: for every configured (non-empty) log directory and every
non-empty container name, when log retrieval and the file write succeed,
`TerminateContainer` writes exactly one file, at the joined path
`<logDir>/<containerName>.log`, containing the combined output of the
log-retrieval command, with permission bits `0644` (= 420), overwriting
whatever any initial filesystem held at that path, and the log fetch and
write both appear strictly before the termination command in the event
trace. -/
theorem TerminateContainer_log_capture (env : DockerEnv) (ctx : Option Nat) (fs : FS)
    (containerName logDir : String) (kill : Bool)
    (hdir : logDir ≠ "") (hname : containerName ≠ "")
    (hlogs : env.logsErr = none) (hwrite : env.writeFileErr = none) :
    (TerminateContainer env ctx fs containerName logDir kill).events.filter
        DockerEvent.isFileWrite
      = [DockerEvent.fileWrite (containerLogPath logDir containerName)
          env.logsCombinedOutput 420] ∧
    (TerminateContainer env ctx fs containerName logDir kill).fs
        (containerLogPath logDir containerName)
      = some (env.logsCombinedOutput, 420) ∧
    (TerminateContainer env ctx fs containerName logDir kill).events.take 3
      = [DockerEvent.exec ctx (dockerLogsCmd containerName),
         DockerEvent.fileWrite (containerLogPath logDir containerName)
           env.logsCombinedOutput 420,
         DockerEvent.exec ctx (dockerTermCmd containerName kill)] := by
  have hw := writeLogs_ok env ctx fs containerName logDir hdir hlogs hwrite
  cases hterm : env.termErr with
  | none =>
      simp [TerminateContainer, hname, hw, hterm, DockerEvent.isFileWrite]
  | some e =>
      simp [TerminateContainer, hname, hw, hterm, DockerEvent.isFileWrite]

/-- The empty filesystem: no file at any path. -/
def emptyFS : FS := fun _ => none

/-- A docker environment in which every external operation succeeds. -/
def dockerEnvOk : DockerEnv :=
  { logsCombinedOutput := "db1 stdout"
    logsErr := none
    writeFileErr := none
    termCombinedOutput := ""
    termErr := none }

/-- C1 witness: concrete run with `logDir = "/logs"`, container `db1`:
the single written file is `/logs/db1.log` with the captured output and
mode 420 (0644), and it precedes the `docker stop` command. -/
theorem TerminateContainer_log_capture_witness :
    (("/logs" : String) ≠ "" ∧ ("db1" : String) ≠ ""
      ∧ dockerEnvOk.logsErr = none ∧ dockerEnvOk.writeFileErr = none
      ∧ containerLogPath "/logs" "db1" = "/logs/db1.log") ∧
    ((TerminateContainer dockerEnvOk none emptyFS "db1" "/logs" false).events.filter
        DockerEvent.isFileWrite
      = [DockerEvent.fileWrite (containerLogPath "/logs" "db1")
          dockerEnvOk.logsCombinedOutput 420] ∧
    (TerminateContainer dockerEnvOk none emptyFS "db1" "/logs" false).fs
        (containerLogPath "/logs" "db1")
      = some (dockerEnvOk.logsCombinedOutput, 420) ∧
    (TerminateContainer dockerEnvOk none emptyFS "db1" "/logs" false).events.take 3
      = [DockerEvent.exec none (dockerLogsCmd "db1"),
         DockerEvent.fileWrite (containerLogPath "/logs" "db1")
           dockerEnvOk.logsCombinedOutput 420,
         DockerEvent.exec none (dockerTermCmd "db1" false)]) :=
  ⟨⟨by decide, by decide, rfl, rfl, by decide⟩,
   TerminateContainer_log_capture dockerEnvOk none emptyFS "db1" "/logs" false
     (by decide) (by decide) rfl rfl⟩

/-- The `docker logs` command is not a termination command. -/
theorem isTermExec_logs (ctx : Option Nat) (n : String) :
    DockerEvent.isTermExec (DockerEvent.exec ctx (dockerLogsCmd n)) = false := rfl

/-- Both termination commands are recognised as termination commands. -/
theorem isTermExec_term (ctx : Option Nat) (n : String) (kill : Bool) :
    DockerEvent.isTermExec (DockerEvent.exec ctx (dockerTermCmd n kill)) = true := by
  cases kill <;> rfl

/-- File-write events are not termination commands. -/
theorem isTermExec_fileWrite (path contents : String) (mode : Nat) :
    DockerEvent.isTermExec (DockerEvent.fileWrite path contents mode) = false := rfl

/-- Fatal events are not termination commands. -/
theorem isTermExec_fatalf (msg : String) :
    DockerEvent.isTermExec (DockerEvent.fatalf msg) = false := rfl

/-- C7: for every non-empty container reference, when log capture does
not abort the test, the termination commands executed by
`TerminateContainer` are exactly one occurrence of the command determined
solely by the kill flag: `docker kill <name>` when `kill` is true, and
the graceful `docker stop --time 30 <name>` when `kill` is false — no
other termination command, hence no escalation by the controller
itself. -/
theorem TerminateContainer_term_command (env : DockerEnv) (ctx : Option Nat) (fs : FS)
    (containerName logDir : String) (kill : Bool)
    (hname : containerName ≠ "")
    (hcapture : logDir = "" ∨ (env.logsErr = none ∧ env.writeFileErr = none)) :
    (TerminateContainer env ctx fs containerName logDir kill).events.filter
        DockerEvent.isTermExec
      = [DockerEvent.exec ctx (dockerTermCmd containerName kill)] ∧
    dockerTermCmd containerName true = { prog := "docker", args := ["kill", containerName] } ∧
    dockerTermCmd containerName false =
      { prog := "docker", args := ["stop", "--time", "30", containerName] } := by
  refine ⟨?_, rfl, rfl⟩
  rcases hcapture with h | ⟨h1, h2⟩
  · have hw := writeLogs_no_dir env ctx fs containerName
    cases hterm : env.termErr with
    | none =>
        rw [h]
        simp [TerminateContainer, hname, hw, hterm, isTermExec_logs, isTermExec_term,
          isTermExec_fileWrite, isTermExec_fatalf]
    | some e =>
        rw [h]
        simp [TerminateContainer, hname, hw, hterm, isTermExec_logs, isTermExec_term,
          isTermExec_fileWrite, isTermExec_fatalf]
  · by_cases hd : logDir = ""
    · have hw := writeLogs_no_dir env ctx fs containerName
      cases hterm : env.termErr with
      | none =>
          rw [hd]
          simp [TerminateContainer, hname, hw, hterm, isTermExec_logs, isTermExec_term,
            isTermExec_fileWrite, isTermExec_fatalf]
      | some e =>
          rw [hd]
          simp [TerminateContainer, hname, hw, hterm, isTermExec_logs, isTermExec_term,
            isTermExec_fileWrite, isTermExec_fatalf]
    · have hw := writeLogs_ok env ctx fs containerName logDir hd h1 h2
      cases hterm : env.termErr with
      | none =>
          simp [TerminateContainer, hname, hw, hterm, isTermExec_logs, isTermExec_term,
            isTermExec_fileWrite, isTermExec_fatalf]
      | some e =>
          simp [TerminateContainer, hname, hw, hterm, isTermExec_logs, isTermExec_term,
            isTermExec_fileWrite, isTermExec_fatalf]

/-- C7 witness: with an empty log directory and `kill = true`, the only
termination command run against container `db1` is `docker kill db1`. -/
theorem TerminateContainer_term_command_witness :
    (("db1" : String) ≠ "") ∧
    (TerminateContainer dockerEnvOk none emptyFS "db1" "" true).events.filter
        DockerEvent.isTermExec
      = [DockerEvent.exec none (dockerTermCmd "db1" true)] :=
  ⟨by decide,
   (TerminateContainer_term_command dockerEnvOk none emptyFS "db1" "" true
     (by decide) (Or.inl rfl)).1⟩

/-- C8: every failure in the container lifecycle controller is fatal to
the calling test via `t.Fatalf`, execution aborts at the first failing
step, the failed command's combined output is included in the message
where a command failed, and each external operation is attempted at most
once (at most two command executions ever appear in a trace — one log
fetch and one termination — so there is no retry). -/
theorem TerminateContainer_failures_fatal (env : DockerEnv) (ctx : Option Nat) (fs : FS)
    (containerName logDir : String) (kill : Bool)
    (hname : containerName ≠ "") :
    (∀ e, logDir ≠ "" → env.logsErr = some e →
      TerminateContainer env ctx fs containerName logDir kill =
        { events := [DockerEvent.exec ctx (dockerLogsCmd containerName),
            DockerEvent.fatalf ("unable to fetch container log " ++ e.message ++ ": "
              ++ env.logsCombinedOutput)]
          fs := fs
          testFatal := true }) ∧
    (∀ e, logDir ≠ "" → env.logsErr = none → env.writeFileErr = some e →
      TerminateContainer env ctx fs containerName logDir kill =
        { events := [DockerEvent.exec ctx (dockerLogsCmd containerName),
            DockerEvent.fatalf ("unable to write container log: " ++ e.message)]
          fs := fs
          testFatal := true }) ∧
    (∀ e, (logDir = "" ∨ (env.logsErr = none ∧ env.writeFileErr = none)) →
      env.termErr = some e →
      (TerminateContainer env ctx fs containerName logDir kill).testFatal = true ∧
      (TerminateContainer env ctx fs containerName logDir kill).events.getLast?
        = some (DockerEvent.fatalf ("unable to terminate container " ++ e.message ++ ": "
            ++ env.termCombinedOutput))) ∧
    ((TerminateContainer env ctx fs containerName logDir kill).events.countP
      DockerEvent.isExec ≤ 2) := by
  refine ⟨?_, ?_, ?_, ?_⟩
  · intro e hd hl
    simp [TerminateContainer, hname,
      writeLogs_fetch_error env ctx fs containerName logDir e hd hl]
  · intro e hd hl hw2
    simp [TerminateContainer, hname,
      writeLogs_write_error env ctx fs containerName logDir e hd hl hw2]
  · intro e hcap hterm
    by_cases hd : logDir = ""
    · subst hd
      have hres : (TerminateContainer env ctx fs containerName "" kill).events
            = [DockerEvent.exec ctx (dockerTermCmd containerName kill),
               DockerEvent.fatalf ("unable to terminate container " ++ e.message ++ ": "
                 ++ env.termCombinedOutput)]
          ∧ (TerminateContainer env ctx fs containerName "" kill).testFatal = true := by
        constructor <;> simp [TerminateContainer, hname, writeLogs_no_dir, hterm]
      exact ⟨hres.2, by rw [hres.1]; rfl⟩
    · rcases hcap with hd2 | ⟨h1, h2⟩
      · exact absurd hd2 hd
      · have hw := writeLogs_ok env ctx fs containerName logDir hd h1 h2
        have hres : (TerminateContainer env ctx fs containerName logDir kill).events
              = [DockerEvent.exec ctx (dockerLogsCmd containerName),
                 DockerEvent.fileWrite (containerLogPath logDir containerName)
                   env.logsCombinedOutput 420,
                 DockerEvent.exec ctx (dockerTermCmd containerName kill),
                 DockerEvent.fatalf ("unable to terminate container " ++ e.message ++ ": "
                   ++ env.termCombinedOutput)]
            ∧ (TerminateContainer env ctx fs containerName logDir kill).testFatal = true := by
          constructor <;> simp [TerminateContainer, hname, hw, hterm]
        exact ⟨hres.2, by rw [hres.1]; rfl⟩
  · by_cases hd : logDir = ""
    · subst hd
      cases hterm : env.termErr <;>
        simp [TerminateContainer, hname, writeLogs_no_dir, hterm, DockerEvent.isExec,
          List.countP_cons, List.countP_nil]
    · cases hl : env.logsErr with
      | some e =>
          simp [TerminateContainer, hname,
            writeLogs_fetch_error env ctx fs containerName logDir e hd hl,
            DockerEvent.isExec, List.countP_cons, List.countP_nil]
      | none =>
          cases hw2 : env.writeFileErr with
          | some e =>
              simp [TerminateContainer, hname,
                writeLogs_write_error env ctx fs containerName logDir e hd hl hw2,
                DockerEvent.isExec, List.countP_cons, List.countP_nil]
          | none =>
              cases hterm : env.termErr <;>
                simp [TerminateContainer, hname,
                  writeLogs_ok env ctx fs containerName logDir hd hl hw2, hterm,
                  DockerEvent.isExec, List.countP_cons, List.countP_nil]

/-- A docker environment in which the `docker logs` command fails. -/
def dockerEnvLogsFail : DockerEnv :=
  { logsCombinedOutput := "Error response from daemon"
    logsErr := some (GoError.base "exit status 1")
    writeFileErr := none
    termCombinedOutput := ""
    termErr := none }

/-- C8 witness: with a failing `docker logs`, the concrete run halts the
test right after the fetch, with the command's combined output in the
fatal message, no file written, no termination command run. -/
theorem TerminateContainer_failures_fatal_witness :
    (("db1" : String) ≠ "") ∧
    TerminateContainer dockerEnvLogsFail none emptyFS "db1" "/logs" false =
      { events := [DockerEvent.exec none (dockerLogsCmd "db1"),
          DockerEvent.fatalf ("unable to fetch container log "
            ++ (GoError.base "exit status 1").message ++ ": "
            ++ dockerEnvLogsFail.logsCombinedOutput)]
        fs := emptyFS
        testFatal := true } :=
  ⟨by decide,
   (TerminateContainer_failures_fatal dockerEnvLogsFail none emptyFS "db1" "/logs" false
      (by decide)).1 (GoError.base "exit status 1") (by decide) rfl⟩

/-- A pgxpool environment in which construction and ping both succeed. -/
def pgEnvAllOk : PGEnv :=
  { newPool := fun _ _ => Except.ok { id := 0 }
    ping := fun _ _ => none }

/-- A pgxpool environment in which construction fails. -/
def pgEnvNewFail : PGEnv :=
  { newPool := fun _ _ => Except.error (GoError.base "cannot parse config")
    ping := fun _ _ => none }

/-- A pgxpool environment in which construction succeeds but the ping
fails. -/
def pgEnvPingFail : PGEnv :=
  { newPool := fun _ _ => Except.ok { id := 7 }
    ping := fun _ _ => some (GoError.base "connection refused") }

/-- C2 witness: with both external steps succeeding, the concrete call
returns a (non-nil) pool handle. -/
theorem CreatePGPool_pool_iff_verified_witness :
    (CreatePGPool pgEnvAllOk 0 none "u" "pw" 5432).pool.isSome = true :=
  (CreatePGPool_pool_iff_verified pgEnvAllOk 0 none "u" "pw" 5432).1.mpr
    ⟨{ id := 0 }, rfl, rfl⟩

/-- C3 witness: with a failing construction whose error does not wrap the
sentinel, the returned error is the wrapped construction error. -/
theorem CreatePGPool_sentinel_iff_ping_failure_witness :
    (CreatePGPool pgEnvNewFail 0 none "u" "pw" 5432).err
      = some (GoError.wrapped
          ("failed to construct new pool: " ++ (GoError.base "cannot parse config").message)
          (GoError.base "cannot parse config")) :=
  ((CreatePGPool_sentinel_iff_ping_failure pgEnvNewFail 0 none "u" "pw" 5432
      (fun e h => by injection h with h; rw [← h]; decide)).2
    (GoError.base "cannot parse config") rfl).1

/-- C4 witness: with a failing ping, the concrete call registers no
cleanup and performs no pool disposal itself. -/
theorem CreatePGPool_cleanup_iff_success_witness :
    (CreatePGPool pgEnvPingFail 0 none "u" "pw" 5432).cleanups = []
    ∧ ∀ q, PGAction.closePool q ∉ (CreatePGPool pgEnvPingFail 0 none "u" "pw" 5432).actions :=
  (CreatePGPool_cleanup_iff_success pgEnvPingFail 0 none "u" "pw" 5432).2.2
    { id := 7 } (GoError.base "connection refused") rfl rfl

/-- C9 witness: with a caller deadline of two seconds at `now = 5`, the
derived deadline exists, is at most `now + 1s`, and is at most the
caller's deadline. -/
theorem CreatePGPool_derived_deadline_witness :
    ∃ t, contextWithTimeout 5 (some 2000000000) timeSecond = some t
      ∧ t ≤ 5 + timeSecond
      ∧ ∀ dl, (some 2000000000 : Option Nat) = some dl → t ≤ dl :=
  (CreatePGPool_derived_deadline pgEnvAllOk 5 (some 2000000000) "u" "pw" 5432).2.2.1

/-- C10 witness: the first action of a concrete call is a `pgxpool.New`
against exactly the interpolated connection string. -/
theorem CreatePGPool_connstring_no_escaping_witness :
    (CreatePGPool pgEnvAllOk 0 none "u" "pw" 5432).actions.head?
      = some (PGAction.newPool (pgConnString "u" "pw" 5432)
          (contextWithTimeout 0 none timeSecond)) :=
  (CreatePGPool_connstring_no_escaping pgEnvAllOk 0 none).1 "u" "pw" 5432
